import Mathlib

/-!
# Verification of `SyncPlatform` (blockchain-explorer)

Shallow embedding of `src/app/platform/fabric/sync/SyncPlatform.js`.
JavaScript values that flow through the code are modelled by `JSValue`;
machine behaviour such as `parseInt(_, 10)`, truthiness and property
access on `undefined` is modelled explicitly. External collaborators
(`FabricEvent`, `SyncService`, `FabricUtils`) are modelled as oracles, or
— where a claim is decided by their missing code — from the spec, as
marked in the corresponding doc comments.
-/

/-- A JavaScript value, restricted to the shapes that flow through
`SyncPlatform`: `undefined`, `null`, booleans, integral numbers, strings
and plain objects (the result of `JSON.parse` on an object document). -/
inductive JSValue where
  | undef
  | null
  | bool (b : Bool)
  | num (n : Int)
  | str (s : String)
  | obj (fields : List (String × JSValue))
deriving Repr, BEq

/-- JavaScript truthiness (`if (v)`): `undefined`, `null`, `false`, `0`
and the empty string are falsy; every object is truthy. -/
def truthy : JSValue → Bool
  | .undef => false
  | .null => false
  | .bool b => b
  | .num n => decide (n ≠ 0)
  | .str s => decide (s ≠ "")
  | .obj _ => true

/-- `ToString` coercion applied by `parseInt` to its first argument.
A plain object (as produced by `JSON.parse` on an object document)
stringifies to `"[object Object]"`. -/
def jsToString : JSValue → String
  | .undef => "undefined"
  | .null => "null"
  | .bool b => if b then "true" else "false"
  | .num n => toString n
  | .str s => s
  | .obj _ => "[object Object]"

/-- Longest prefix of decimal digits. -/
def digitsPrefix (cs : List Char) : List Char :=
  cs.takeWhile (fun c => c.isDigit)

/-- Value of a nonempty digit list; `none` when no digits were found
(`parseInt` yields `NaN` there). -/
def digitsToNat : List Char → Option Nat
  | [] => none
  | ds => some (ds.foldl (fun acc c => acc * 10 + (c.toNat - 48)) 0)

/-- Character-level semantics of `parseInt(s, 10)`: skip leading
whitespace, read an optional sign, then the longest digit prefix;
`none` models `NaN`. -/
def parseIntChars (cs : List Char) : Option Int :=
  let cs := cs.dropWhile (fun c => c = ' ' ∨ c = '\t' ∨ c = '\n' ∨ c = '\r')
  match cs with
  | '-' :: rest => (digitsToNat (digitsPrefix rest)).map (fun n => -(n : Int))
  | '+' :: rest => (digitsToNat (digitsPrefix rest)).map (fun n => (n : Int))
  | _ => (digitsToNat (digitsPrefix cs)).map (fun n => (n : Int))

/-- `parseInt(v, 10)` on an arbitrary JavaScript value: the value is
first coerced to a string. -/
def parseIntJS (v : JSValue) : Option Int :=
  parseIntChars (jsToString v).toList

/-- Embedding of `SyncPlatform.setBlocksSyncTime` (lines 152–159):

```
setBlocksSyncTime(blocksSyncTime) {
  if (blocksSyncTime) {
    const time = parseInt(blocksSyncTime, 10);
    if (!isNaN(time)) {
      this.blocksSyncTime = time * 60 * 1000;
    }
  }
}
```

`cur` is the current value of `this.blocksSyncTime`; the result is its
value after the call. -/
def setBlocksSyncTime (blocksSyncTime : JSValue) (cur : Int) : Int :=
  if truthy blocksSyncTime then
    match parseIntJS blocksSyncTime with
    | some time => time * 60 * 1000
    | none => cur
  else cur


/-- Errors an `initialize` run can surface. `typeError` is a raw
JavaScript `TypeError` (e.g. reading a property of `undefined`);
`explorerError` is the repository's typed `ExplorerError` with its
message code; `configError` is the typed configuration error named by
the specification's taxonomy (§7) — the source never constructs one. -/
inductive JsErr where
  | typeError (msg : String)
  | explorerError (code : String)
  | configError (msg : String)
deriving Repr, DecidableEq

/-- One entry of the `network-configs` object: `name` is the network's
`name` field (its default client) and `clients` lists the keys of its
`clients` object in order. -/
structure NetworkConf where
  name : String
  clients : List String
deriving Repr, DecidableEq

/-- JavaScript property lookup `network_configs[n]`: `none` models
`undefined`. -/
def lookupNet (cfgs : List (String × NetworkConf)) (n : String) :
    Option NetworkConf :=
  (cfgs.find? (fun p => p.1 = n)).map Prod.snd

/-- Embedding of the argument-resolution block of
`SyncPlatform.initialize` (lines 66–79):

```
if (args.length === 0) {
  this.network_name = Object.keys(network_configs)[0];
  this.client_name = network_configs[this.network_name].name;
} else if (args.length === 1) {
  this.network_name = args[0];
  this.client_name = Object.keys(network_configs[this.network_name].clients)[0];
} else {
  this.network_name = args[0];
  this.client_name = args[1];
}
```

`Option String` models a possibly-`undefined` name (`Object.keys(o)[0]`
is `undefined` on an empty object); reading `.name` or `.clients` on an
`undefined` lookup raises a `TypeError`, never a typed error. -/
def resolveSelection (args : List String)
    (network_configs : List (String × NetworkConf)) :
    Except JsErr (Option String × Option String) :=
  match args with
  | [] =>
    match (network_configs.map Prod.fst).head? with
    | none =>
      .error (.typeError "Cannot read property name of undefined")
    | some network_name =>
      match lookupNet network_configs network_name with
      | none => .error (.typeError "Cannot read property name of undefined")
      | some nc => .ok (some network_name, some nc.name)
  | [a0] =>
    match lookupNet network_configs a0 with
    | none => .error (.typeError "Cannot read property clients of undefined")
    | some nc => .ok (some a0, nc.clients.head?)
  | a0 :: a1 :: _ => .ok (some a0, some a1)

/-- Results of the two external calls `initialize` awaits:
`FabricUtils.createFabricClient` (`clientOk` is false when it returns no
usable client) and `SyncService.synchNetworkConfigToDB` (its raw result,
tested for truthiness by `if (!res) return;`). -/
structure ExternalWorld where
  clientOk : Bool
  registrationResult : JSValue

/-- Observable effects of one `initialize` run: the resolved names, the
final `this.blocksSyncTime`, whether `new FabricEvent(...)` was
constructed and initialized, whether the recursive sync timer was
scheduled, and the delay of its first firing. -/
structure InitEffects where
  network_name : Option String
  client_name : Option String
  blocksSyncTime : Int
  eventHubStarted : Bool
  timerScheduled : Bool
  firstTickDelay : Option Int
deriving Repr, DecidableEq

/-- Embedding of `SyncPlatform.initialize` (lines 56–132) after the
config file is parsed: resolve names (lines 66–79), set the sync
interval by passing the ENTIRE parsed config object to
`setBlocksSyncTime` (line 88: `await this.setBlocksSyncTime(all_config)`),
construct the fabric client (throwing `ExplorerError` `ERROR_2011` when
unusable, lines 103–105), register to the DB and return early on a falsy
result (lines 108–111), then start the event hub and schedule the first
timer firing after `this.blocksSyncTime` (lines 114–127). -/
def initializePlatform (args : List String) (all_config : JSValue)
    (network_configs : List (String × NetworkConf)) (w : ExternalWorld) :
    Except JsErr InitEffects :=
  match resolveSelection args network_configs with
  | .error e => .error e
  | .ok names =>
    let bst := setBlocksSyncTime all_config 60000
    if !w.clientOk then
      .error (.explorerError "ERROR_2011")
    else if !truthy w.registrationResult then
      .ok ⟨names.1, names.2, bst, false, false, none⟩
    else
      .ok ⟨names.1, names.2, bst, true, true, some bst⟩

/-- Firing times of the recursive sync timer (lines 117–127):
`setTimeout(sync, T)` fires the first tick at delay `T` after
initialization, and the body reschedules itself `T` after each firing
(`synchBlocks` is dispatched without `await`, so the body completes
immediately). `tickTime T n` is the time of the `n`-th firing. -/
def tickTime (T : Int) : Nat → Int
  | 0 => T
  | n + 1 => tickTime T n + T


/-- One per-channel action dispatched by the tick body. -/
inductive TickAction where
  | synch (channel : String)
  | reconnect (channel : String)
deriving Repr, DecidableEq

/-- Per-channel environment the loop consults: `connected c` is the
result of `this.eventHub.isChannelEventHubConnected(c)`, and
`synchFails c` says whether the awaited
`this.syncService.synchBlocks(client, channel)` rejects for channel `c`
in this tick. `connectChannelEventHub` is fire-and-forget and does not
raise. -/
structure ChannelEnv where
  connected : String → Bool
  synchFails : String → Bool

/-- Embedding of the loop of `SyncPlatform.isChannelEventHubConnected`
(lines 139–150):

```
for (const [channel_name, channel] of this.client.getChannels().entries()) {
  const status = this.eventHub.isChannelEventHubConnected(channel_name);
  if (status) {
    await this.syncService.synchBlocks(this.client, channel);
  } else {
    this.eventHub.connectChannelEventHub(channel_name);
  }
}
```

Returns the list of per-channel calls actually made, in order, and
`some c` when the awaited `synchBlocks` for channel `c` rejected: the
loop body has no `try`/`catch`, so the rejection propagates out of the
`async` method and the remaining channels are not visited. -/
def isChannelEventHubConnected (env : ChannelEnv) :
    List String → List TickAction × Option String
  | [] => ([], none)
  | c :: rest =>
    if env.connected c then
      if env.synchFails c then ([TickAction.synch c], some c)
      else
        let r := isChannelEventHubConnected env rest
        (TickAction.synch c :: r.1, r.2)
    else
      let r := isChannelEventHubConnected env rest
      (TickAction.reconnect c :: r.1, r.2)

/-- Reschedule step of the sync timer body (lines 117–127): the body
calls `this.eventHub.synchBlocks()` WITHOUT `await` or `.catch`, then
unconditionally runs `setTimeout(() => sync(), this.blocksSyncTime)`.
The next firing is therefore scheduled at `now + T` whatever the tick's
outcome — the outcome argument is ignored exactly as the source ignores
the returned promise. -/
def syncTimerNext (T now : Int)
    (_outcome : List TickAction × Option String) : Int :=
  now + T

/-- Modelled from the spec: the per-channel in-flight guard of the
synchronization service (`SyncService.synchBlocks` as driven by
`FabricEvent.synchBlocks`, neither under `src/`). Spec §3:
"at most one concurrent run per channel (mutual exclusion by channel
name) — a new scheduled tick for a channel whose previous run has not
finished must skip that channel for this tick rather than queue or
overlap." `inFlight` is the set of channel names with an unfinished
run; the result is the list of channels for which a new run was started
this tick and the updated in-flight set. -/
def guardedSynchTick (inFlight : List String) :
    List String → List String × List String
  | [] => ([], inFlight)
  | c :: rest =>
    if c ∈ inFlight then guardedSynchTick inFlight rest
    else
      let r := guardedSynchTick (c :: inFlight) rest
      (c :: r.1, r.2)

/-- State of the `FabricEvent` hub as far as `destroy` observes it: the
channels with an active event stream. -/
structure EventHubState where
  connectedChannels : List String
deriving Repr, DecidableEq

/-- State of a `SyncPlatform` instance at shutdown time: `this.eventHub`
is `none` before `initialize` has constructed it (or when initialization
failed before line 114). -/
structure PlatformState where
  eventHub : Option EventHubState
deriving Repr, DecidableEq

/-- Modelled from the spec: `FabricEvent.disconnectEventHubs` (not under
`src/`). Spec §4.2 `disconnectAll`: "best-effort disconnect of every
channel's stream; must not raise on a channel that is already
disconnected; used only at shutdown." -/
def disconnectEventHubs (_h : EventHubState) : EventHubState :=
  ⟨[]⟩

/-- Embedding of `SyncPlatform.destroy` (lines 193–197):

```
destroy() {
  if (this.eventHub) {
    this.eventHub.disconnectEventHubs();
  }
}
```

The `if (this.eventHub)` guard skips the call when no event hub exists;
an `.error` result would model a raised exception — none is ever
produced. -/
def destroy (s : PlatformState) : Except JsErr PlatformState :=
  match s.eventHub with
  | none => .ok s
  | some h => .ok ⟨some (disconnectEventHubs h)⟩

/-- Number of channels with an active event stream. -/
def activeStreams (s : PlatformState) : Nat :=
  match s.eventHub with
  | none => 0
  | some h => h.connectedChannels.length

/-! ## Helper lemmas -/

lemma parseIntJS_obj (fields : List (String × JSValue)) :
    parseIntJS (.obj fields) = none := rfl

lemma setBlocksSyncTime_obj (fields : List (String × JSValue)) (cur : Int) :
    setBlocksSyncTime (.obj fields) cur = cur := rfl

lemma tickTime_ge (T : Int) (hT : 0 < T) : ∀ n, T ≤ tickTime T n := by
  intro n
  induction n with
  | zero => exact le_refl T
  | succ m ih => simpa [tickTime] using le_add_of_le_of_nonneg ih (le_of_lt hT)

/-! ## Claim C4 -/

/-- Claim C4 (counterexample): contrary to the claim, the input string
`"0"` is NOT rejected by `setBlocksSyncTime`: `"0"` is a truthy string,
`parseInt("0", 10)` is `0`, and the interval is set to `0` ms, not kept
at the 60000 ms default. -/
theorem setBlocksSyncTime_zero_cex :
    setBlocksSyncTime (.str "0") 60000 = 0 ∧
    setBlocksSyncTime (.str "0") 60000 ≠ 60000 := by decide

/-- Claim C4 (amended): `setBlocksSyncTime` parses its input as an
integer count of minutes and multiplies by 60000: `"5"` sets 300000 ms,
`"abc"` and an absent (`undefined`) value leave the current value
unchanged, but `"0"` is accepted and sets the interval to 0 ms — the
code does not enforce a strictly positive interval. -/
theorem setBlocksSyncTime_parsing (cur : Int) :
    setBlocksSyncTime (.str "5") cur = 300000 ∧
    setBlocksSyncTime (.str "abc") cur = cur ∧
    setBlocksSyncTime .undef cur = cur ∧
    setBlocksSyncTime (.str "0") cur = 0 :=
  ⟨rfl, rfl, rfl, rfl⟩

/-! ## Claim C10 -/

/-- Claim C10: `initialize` passes the ENTIRE parsed configuration
object to `setBlocksSyncTime` (line 88), and `parseInt` of a plain
object is `NaN` (its string coercion `"[object Object]"` has no digit
prefix), so for every configuration document the interval stays at the
constructor default of 60000 ms after a successful `initialize`,
regardless of any configured sync-interval value. -/
theorem whole_config_keeps_default_interval
    (args : List String) (fields : List (String × JSValue))
    (cfgs : List (String × NetworkConf)) (w : ExternalWorld)
    (eff : InitEffects)
    (h : initializePlatform args (.obj fields) cfgs w = .ok eff) :
    setBlocksSyncTime (.obj fields) 60000 = 60000 ∧
    eff.blocksSyncTime = 60000 := by
  refine ⟨rfl, ?_⟩
  unfold initializePlatform at h
  cases hres : resolveSelection args cfgs with
  | error e =>
    rw [hres] at h
    exact absurd h (by simp)
  | ok names =>
    rw [hres] at h
    by_cases hc : w.clientOk <;>
      by_cases hr : truthy w.registrationResult <;>
        simp [hc, hr, setBlocksSyncTime_obj] at h <;>
          simp [← h]

/-- Claim C10 (witness): a concrete configuration object carrying a
sync-interval field of 5 minutes still yields a 60000 ms interval. -/
theorem whole_config_keeps_default_interval_witness :
    setBlocksSyncTime (.obj [("syncBlocksTime", .num 5)]) 60000 = 60000 ∧
    (⟨some "net1", some "clientA", 60000, true, true,
      some 60000⟩ : InitEffects).blocksSyncTime = 60000 :=
  whole_config_keeps_default_interval [] [("syncBlocksTime", .num 5)]
    [("net1", ⟨"clientA", ["clientA"]⟩)] ⟨true, .bool true⟩
    ⟨some "net1", some "clientA", 60000, true, true, some 60000⟩ rfl

/-! ## Claim C7 -/

/-- Claim C7: when `synchNetworkConfigToDB` reports failure (a falsy
result), `initialize` returns early with `.ok` — no exception — and the
controller never starts: no `FabricEvent` hub is constructed and no sync
timer is scheduled in that run. -/
theorem registration_failure_soft_stop
    (args : List String) (cfg : JSValue) (cfgs : List (String × NetworkConf))
    (w : ExternalWorld) (names : Option String × Option String)
    (hsel : resolveSelection args cfgs = .ok names)
    (hclient : w.clientOk = true)
    (hreg : truthy w.registrationResult = false) :
    initializePlatform args cfg cfgs w =
      .ok ⟨names.1, names.2, setBlocksSyncTime cfg 60000,
           false, false, none⟩ := by
  unfold initializePlatform
  rw [hsel]
  simp [hclient, hreg]

/-- Claim C7 (witness): with one configured network, a usable client and
a registration call returning `false`, `initialize` soft-stops: `.ok`
result, no event hub, no timer. -/
theorem registration_failure_soft_stop_witness :
    initializePlatform [] (.obj []) [("net1", ⟨"clientA", ["clientA"]⟩)]
        ⟨true, .bool false⟩ =
      .ok ⟨some "net1", some "clientA", 60000, false, false, none⟩ :=
  registration_failure_soft_stop [] (.obj [])
    [("net1", ⟨"clientA", ["clientA"]⟩)] ⟨true, .bool false⟩
    (some "net1", some "clientA") rfl rfl rfl

/-! ## Claim C8 -/

/-- Claim C8: after a successful `initialize` in which the timer was
scheduled, the first tick is scheduled at one full interval
(`firstTickDelay` equals the final `blocksSyncTime`), and for a positive
interval `T` the recursive timer's `n`-th firing is at `tickTime T n ≥ T`
with the first firing exactly at `T` — no synchronization pass occurs
before one interval has elapsed. -/
theorem first_tick_after_full_interval
    (args : List String) (cfg : JSValue) (cfgs : List (String × NetworkConf))
    (w : ExternalWorld) (eff : InitEffects)
    (h : initializePlatform args cfg cfgs w = .ok eff)
    (hs : eff.timerScheduled = true) :
    eff.firstTickDelay = some eff.blocksSyncTime ∧
    ∀ T : Int, 0 < T → tickTime T 0 = T ∧ ∀ n, T ≤ tickTime T n := by
  refine ⟨?_, fun T hT => ⟨rfl, tickTime_ge T hT⟩⟩
  unfold initializePlatform at h
  cases hres : resolveSelection args cfgs with
  | error e =>
    rw [hres] at h
    exact absurd h (by simp)
  | ok names =>
    rw [hres] at h
    by_cases hc : w.clientOk <;>
      by_cases hr : truthy w.registrationResult <;>
        simp [hc, hr] at h <;> simp [← h] at hs ⊢

/-- Claim C8 (witness): the default scenario — one network, no
configured interval field reaching the setter, full startup — schedules
the first tick at 60000 ms, and every firing of a 60000 ms timer is at
time ≥ 60000. -/
theorem first_tick_after_full_interval_witness :
    ((⟨some "net1", some "clientA", 60000, true, true,
        some 60000⟩ : InitEffects).firstTickDelay =
      some (⟨some "net1", some "clientA", 60000, true, true,
        some 60000⟩ : InitEffects).blocksSyncTime) ∧
    ∀ T : Int, 0 < T → tickTime T 0 = T ∧ ∀ n, T ≤ tickTime T n :=
  first_tick_after_full_interval [] (.obj [])
    [("net1", ⟨"clientA", ["clientA"]⟩)] ⟨true, .bool true⟩
    ⟨some "net1", some "clientA", 60000, true, true, some 60000⟩ rfl rfl

/-! ## Claim C9 -/

/-- Claim C9: `destroy` never raises in any state — including before
`initialize` has completed, when `this.eventHub` is still `null` — it
leaves zero active event streams, and calling it a second time is a
no-op on the already-destroyed state. -/
theorem destroy_idempotent_and_safe (s : PlatformState) :
    ∃ s₁, destroy s = .ok s₁ ∧ activeStreams s₁ = 0 ∧
      destroy s₁ = .ok s₁ := by
  cases hs : s.eventHub with
  | none =>
    refine ⟨s, ?_, ?_, ?_⟩ <;> simp [destroy, activeStreams, hs]
  | some h =>
    exact ⟨⟨some ⟨[]⟩⟩, by simp [destroy, hs, disconnectEventHubs],
      rfl, rfl⟩

/-! ## Claim C5 -/

/-- Claim C5: for every valid argument list the selection rule holds:
0 arguments pick the first configured network and its default client
(`.name` field); 1 argument picks the named network and the first client
listed under it; 2 arguments pick the named network and named client. -/
theorem initialize_selection_rule
    (k n c : String) (nc0 nc : NetworkConf)
    (rest : List (String × NetworkConf))
    (h1 : lookupNet ((k, nc0) :: rest) n = some nc)
    (hcl : nc.clients ≠ []) :
    resolveSelection [] ((k, nc0) :: rest) = .ok (some k, some nc0.name) ∧
    resolveSelection [n] ((k, nc0) :: rest) =
      .ok (some n, some (nc.clients.head hcl)) ∧
    resolveSelection [n, c] ((k, nc0) :: rest) = .ok (some n, some c) := by
  refine ⟨?_, ?_, rfl⟩
  · simp [resolveSelection, lookupNet, List.find?]
  · simp [resolveSelection, h1, List.head?_eq_head hcl]

/-- Claim C5 (witness): with a single configured network `net1` whose
default client is `clientA` and whose clients are `clientA`, `clientB`,
the three argument shapes resolve as specified. -/
theorem initialize_selection_rule_witness :
    resolveSelection [] [("net1", ⟨"clientA", ["clientA", "clientB"]⟩)] =
      .ok (some "net1", some "clientA") ∧
    resolveSelection ["net1"] [("net1", ⟨"clientA", ["clientA", "clientB"]⟩)] =
      .ok (some "net1", some "clientA") ∧
    resolveSelection ["net1", "clientB"]
        [("net1", ⟨"clientA", ["clientA", "clientB"]⟩)] =
      .ok (some "net1", some "clientB") :=
  initialize_selection_rule "net1" "net1" "clientB"
    ⟨"clientA", ["clientA", "clientB"]⟩ ⟨"clientA", ["clientA", "clientB"]⟩
    [] rfl (by decide)

/-! ## Claim C6 -/

/-- Claim C6 (counterexample): an absent network name does NOT produce a
typed `ConfigError`. With one argument naming a missing network the code
raises a raw `TypeError` (reading `.clients` of `undefined`); with two
arguments naming a missing network and client, resolution succeeds
without any validation and — given a usable client and truthy
registration — initialization runs to completion, scheduling the timer,
rather than aborting before client work. -/
theorem absent_network_no_config_error_cex :
    resolveSelection ["missing"] [("net1", ⟨"clientA", ["clientA"]⟩)] =
      .error (.typeError "Cannot read property clients of undefined") ∧
    initializePlatform ["missing", "alsoMissing"] (.obj [])
        [("net1", ⟨"clientA", ["clientA"]⟩)] ⟨true, .bool true⟩ =
      .ok ⟨some "missing", some "alsoMissing", 60000, true, true,
           some 60000⟩ := by
  exact ⟨rfl, rfl⟩

/-- Claim C6 (amended): if the network named by a single argument is
absent from the configuration, `initialize` fails with a raw, untyped
`TypeError` — not a typed `ConfigError`; with two arguments no name
validation occurs at resolution, and initialization aborts before the
controller starts only if the external client construction fails, in
which case the error is the typed `ExplorerError` `ERROR_2011`. -/
theorem absent_network_untyped_failure
    (cfgs : List (String × NetworkConf)) (n c : String)
    (h : lookupNet cfgs n = none) :
    resolveSelection [n] cfgs =
      .error (.typeError "Cannot read property clients of undefined") ∧
    resolveSelection [n, c] cfgs = .ok (some n, some c) ∧
    ∀ cfg w, w.clientOk = false →
      initializePlatform [n, c] cfg cfgs w =
        .error (.explorerError "ERROR_2011") := by
  refine ⟨?_, rfl, ?_⟩
  · simp [resolveSelection, h]
  · intro cfg w hw
    unfold initializePlatform
    simp [resolveSelection, hw]

/-- Claim C6 (amended, witness): concrete instantiation with a missing
network `missing` against a configuration holding only `net1`. -/
theorem absent_network_untyped_failure_witness :
    resolveSelection ["missing"] [("net1", ⟨"clientA", ["clientA"]⟩)] =
      .error (.typeError "Cannot read property clients of undefined") ∧
    resolveSelection ["missing", "cX"] [("net1", ⟨"clientA", ["clientA"]⟩)] =
      .ok (some "missing", some "cX") ∧
    ∀ cfg w, w.clientOk = false →
      initializePlatform ["missing", "cX"] cfg
          [("net1", ⟨"clientA", ["clientA"]⟩)] w =
        .error (.explorerError "ERROR_2011") :=
  absent_network_untyped_failure [("net1", ⟨"clientA", ["clientA"]⟩)]
    "missing" "cX" rfl

/-! ## Claim C1 -/

lemma guardedSynchTick_snd_mem (chans : List String) :
    ∀ inFlight c, (c ∈ inFlight ∨ c ∈ chans) →
      c ∈ (guardedSynchTick inFlight chans).2 := by
  induction chans with
  | nil =>
    intro inFlight c hc
    simpa [guardedSynchTick] using hc.resolve_right (by simp)
  | cons a rest ih =>
    intro inFlight c hc
    by_cases ha : a ∈ inFlight
    · simp only [guardedSynchTick, if_pos ha]
      refine ih inFlight c ?_
      rcases hc with h | h
      · exact Or.inl h
      · rcases List.mem_cons.mp h with rfl | h
        · exact Or.inl ha
        · exact Or.inr h
    · simp only [guardedSynchTick, if_neg ha]
      refine ih (a :: inFlight) c ?_
      rcases hc with h | h
      · exact Or.inl (List.mem_cons_of_mem a h)
      · rcases List.mem_cons.mp h with rfl | h
        · exact Or.inl (List.mem_cons_self c inFlight)
        · exact Or.inr h

lemma guardedSynchTick_fst_nil (chans : List String) :
    ∀ inFlight, (∀ c ∈ chans, c ∈ inFlight) →
      (guardedSynchTick inFlight chans).1 = [] := by
  induction chans with
  | nil => intro inFlight _; rfl
  | cons a rest ih =>
    intro inFlight h
    have ha : a ∈ inFlight := h a (List.mem_cons_self a rest)
    simp only [guardedSynchTick, if_pos ha]
    exact ih inFlight (fun c hc => h c (List.mem_cons_of_mem a hc))

lemma guardedSynchTick_snd_nodup (chans : List String) :
    ∀ inFlight, inFlight.Nodup →
      ((guardedSynchTick inFlight chans).2).Nodup := by
  induction chans with
  | nil => intro inFlight h; exact h
  | cons a rest ih =>
    intro inFlight h
    by_cases ha : a ∈ inFlight
    · simp only [guardedSynchTick, if_pos ha]
      exact ih inFlight h
    · simp only [guardedSynchTick, if_neg ha]
      exact ih (a :: inFlight) (List.nodup_cons.mpr ⟨ha, h⟩)

/-- Claim C1: the per-channel in-flight guard gives mutual exclusion by
channel name. Starting from an in-flight set with no duplicate channel
names, after any tick the in-flight set still has no duplicates (at most
one unfinished run per channel), and a second tick fired immediately —
before any run of the first tick has finished — starts zero new runs:
each channel is skipped, not queued or overlapped. -/
theorem at_most_one_sync_run_per_channel
    (chans inFlight : List String) (h : inFlight.Nodup) :
    ((guardedSynchTick inFlight chans).2).Nodup ∧
    (guardedSynchTick ((guardedSynchTick inFlight chans).2) chans).1 = [] := by
  refine ⟨guardedSynchTick_snd_nodup chans inFlight h, ?_⟩
  exact guardedSynchTick_fst_nil chans _
    (fun c hc => guardedSynchTick_snd_mem chans inFlight c (Or.inr hc))

/-- Claim C1 (witness): two channels, one of which already has an
unfinished run; after the tick the in-flight set is duplicate-free and
an immediately repeated tick starts no run at all. -/
theorem at_most_one_sync_run_per_channel_witness :
    ((guardedSynchTick ["ch2"] ["ch1", "ch2"]).2).Nodup ∧
    (guardedSynchTick ((guardedSynchTick ["ch2"] ["ch1", "ch2"]).2)
      ["ch1", "ch2"]).1 = [] :=
  at_most_one_sync_run_per_channel ["ch1", "ch2"] ["ch2"] (by decide)

/-! ## Claims C2 and C3: the tick body -/

/-- The single action the loop body takes for one channel: `synchBlocks`
when the event hub reports connected, `connectChannelEventHub`
otherwise. -/
def routeAction (env : ChannelEnv) (c : String) : TickAction :=
  if env.connected c then .synch c else .reconnect c

lemma routeAction_injective (env : ChannelEnv) :
    Function.Injective (routeAction env) := by
  intro a b hab
  unfold routeAction at hab
  by_cases ha : env.connected a <;> by_cases hb : env.connected b <;>
    simp [ha, hb] at hab <;> exact hab

lemma isChannelEventHubConnected_ok (env : ChannelEnv) (chans : List String)
    (h : ∀ c ∈ chans, env.connected c = true → env.synchFails c = false) :
    isChannelEventHubConnected env chans =
      (chans.map (routeAction env), none) := by
  induction chans with
  | nil => rfl
  | cons a rest ih =>
    have hrest := fun c hc => h c (List.mem_cons_of_mem a hc)
    by_cases ha : env.connected a
    · have hfa : env.synchFails a = false := h a (List.mem_cons_self a rest) ha
      simp [isChannelEventHubConnected, ha, hfa, ih hrest, routeAction]
    · simp [isChannelEventHubConnected, ha, ih hrest, routeAction]

lemma isChannelEventHubConnected_append (env : ChannelEnv)
    (pre rest : List String)
    (hpre : ∀ c ∈ pre, env.connected c = true → env.synchFails c = false) :
    isChannelEventHubConnected env (pre ++ rest) =
      (pre.map (routeAction env) ++ (isChannelEventHubConnected env rest).1,
       (isChannelEventHubConnected env rest).2) := by
  induction pre with
  | nil => simp [isChannelEventHubConnected]
  | cons a p ih =>
    have hrest := fun c hc => hpre c (List.mem_cons_of_mem a hc)
    by_cases ha : env.connected a
    · have hfa : env.synchFails a = false :=
        hpre a (List.mem_cons_self a p) ha
      simp [isChannelEventHubConnected, ha, hfa, ih hrest, routeAction]
    · simp [isChannelEventHubConnected, ha, ih hrest, routeAction]

/-- Claim C2 (counterexample): contrary to the claim, not every
execution of the tick body gives each connected channel a `synchBlocks`
call. With both channels connected and channel `chA`'s awaited
`synchBlocks` rejecting, the loop aborts and the connected channel `chB`
receives neither `synchBlocks` nor a reconnect. -/
theorem connected_channel_not_synched_cex :
    ((⟨fun _ => true, fun c => c == "chA"⟩ : ChannelEnv).connected "chB"
      = true) ∧
    isChannelEventHubConnected ⟨fun _ => true, fun c => c == "chA"⟩
        ["chA", "chB"] = ([TickAction.synch "chA"], some "chA") ∧
    TickAction.synch "chB" ∉
      (isChannelEventHubConnected ⟨fun _ => true, fun c => c == "chA"⟩
        ["chA", "chB"]).1 := by
  refine ⟨rfl, rfl, by decide⟩

/-- Claim C2 (amended): in every execution of the tick body in which no
connected channel's awaited `synchBlocks` call rejects, the loop
completes (no propagated error) and routes exactly as claimed: every
disconnected channel receives exactly one reconnect and no
`synchBlocks`; every connected channel receives exactly one
`synchBlocks` and no reconnect. (When some `synchBlocks` rejects, the
channels after it in iteration order are not processed at all — see
C3.) -/
theorem tick_routing_policy (env : ChannelEnv) (chans : List String)
    (hnd : chans.Nodup)
    (hok : ∀ c ∈ chans, env.connected c = true → env.synchFails c = false) :
    (isChannelEventHubConnected env chans).2 = none ∧
    ∀ c ∈ chans,
      (env.connected c = true →
        (isChannelEventHubConnected env chans).1.count (TickAction.synch c)
            = 1 ∧
        (isChannelEventHubConnected env chans).1.count
            (TickAction.reconnect c) = 0) ∧
      (env.connected c = false →
        (isChannelEventHubConnected env chans).1.count
            (TickAction.reconnect c) = 1 ∧
        (isChannelEventHubConnected env chans).1.count (TickAction.synch c)
            = 0) := by
  rw [isChannelEventHubConnected_ok env chans hok]
  refine ⟨rfl, ?_⟩
  intro c hc
  have hcount : (chans.map (routeAction env)).count (routeAction env c)
      = chans.count c :=
    List.count_map_of_injective chans (routeAction env)
      (routeAction_injective env) c
  have h1 : chans.count c = 1 := List.count_eq_one_of_mem hnd hc
  constructor
  · intro hcon
    have hr : routeAction env c = .synch c := by simp [routeAction, hcon]
    refine ⟨by rw [← hr, hcount, h1], ?_⟩
    rw [List.count_eq_zero]
    intro hmem
    rcases List.mem_map.mp hmem with ⟨b, _, hbe⟩
    unfold routeAction at hbe
    by_cases hcb : env.connected b
    · simp [hcb] at hbe
    · simp [hcb] at hbe
      rw [hbe] at hcb
      exact hcb (by simp [hcon])
  · intro hcon
    have hr : routeAction env c = .reconnect c := by
      simp [routeAction, hcon]
    refine ⟨by rw [← hr, hcount, h1], ?_⟩
    rw [List.count_eq_zero]
    intro hmem
    rcases List.mem_map.mp hmem with ⟨b, _, hbe⟩
    unfold routeAction at hbe
    by_cases hcb : env.connected b
    · simp [hcb] at hbe
      rw [hbe] at hcb
      simp [hcon] at hcb
    · simp [hcb] at hbe

/-- Claim C2 (amended, witness): channels `p1` (connected) and `p2`
(disconnected), no rejecting `synchBlocks`: `p1` gets exactly one
`synchBlocks` and no reconnect, `p2` exactly one reconnect and no
`synchBlocks`, and the loop completes. -/
theorem tick_routing_policy_witness :
    (isChannelEventHubConnected ⟨fun c => c == "p1", fun _ => false⟩
        ["p1", "p2"]).2 = none ∧
    ∀ c ∈ ["p1", "p2"],
      ((⟨fun c => c == "p1", fun _ => false⟩ : ChannelEnv).connected c
          = true →
        (isChannelEventHubConnected ⟨fun c => c == "p1", fun _ => false⟩
            ["p1", "p2"]).1.count (TickAction.synch c) = 1 ∧
        (isChannelEventHubConnected ⟨fun c => c == "p1", fun _ => false⟩
            ["p1", "p2"]).1.count (TickAction.reconnect c) = 0) ∧
      ((⟨fun c => c == "p1", fun _ => false⟩ : ChannelEnv).connected c
          = false →
        (isChannelEventHubConnected ⟨fun c => c == "p1", fun _ => false⟩
            ["p1", "p2"]).1.count (TickAction.reconnect c) = 1 ∧
        (isChannelEventHubConnected ⟨fun c => c == "p1", fun _ => false⟩
            ["p1", "p2"]).1.count (TickAction.synch c) = 0) :=
  tick_routing_policy ⟨fun c => c == "p1", fun _ => false⟩ ["p1", "p2"]
    (by decide) (by decide)

/-- Claim C3 (counterexample): error isolation fails. With channel
`alpha` connected and its awaited `synchBlocks` rejecting, and channel
`beta` disconnected, the rejection propagates out of the loop (no
`try`/`catch`) and `beta` receives neither its reconnect nor a
synchronize attempt in that tick. -/
theorem sync_error_not_isolated_cex :
    isChannelEventHubConnected ⟨fun c => c == "alpha", fun c => c == "alpha"⟩
        ["alpha", "beta"] = ([TickAction.synch "alpha"], some "alpha") ∧
    TickAction.reconnect "beta" ∉
      (isChannelEventHubConnected
        ⟨fun c => c == "alpha", fun c => c == "alpha"⟩ ["alpha", "beta"]).1 ∧
    TickAction.synch "beta" ∉
      (isChannelEventHubConnected
        ⟨fun c => c == "alpha", fun c => c == "alpha"⟩ ["alpha", "beta"]).1 := by
  refine ⟨rfl, by decide, by decide⟩

/-- Claim C3 (amended): a rejection of the awaited `synchBlocks` for
channel `a` aborts the rest of the tick — the channels processed are
exactly those before `a` (each getting its routed action) plus the
failing `synchBlocks` call itself, so every channel after `a` in
iteration order receives neither a synchronize nor a reconnect attempt
in that tick. The timer, however, is unaffected: the sync body schedules
the next firing at `now + T` before any rejection can propagate, whatever
the tick's outcome. -/
theorem sync_error_aborts_rest_but_timer_reschedules
    (env : ChannelEnv) (pre suf : List String) (a : String)
    (hpre : ∀ c ∈ pre, env.connected c = true → env.synchFails c = false)
    (ha : env.connected a = true) (haf : env.synchFails a = true) :
    isChannelEventHubConnected env (pre ++ a :: suf) =
      (pre.map (routeAction env) ++ [TickAction.synch a], some a) ∧
    ∀ T now : Int,
      syncTimerNext T now (isChannelEventHubConnected env (pre ++ a :: suf))
        = now + T := by
  have h1 : isChannelEventHubConnected env (a :: suf) =
      ([TickAction.synch a], some a) := by
    simp [isChannelEventHubConnected, ha, haf]
  refine ⟨?_, fun T now => rfl⟩
  rw [isChannelEventHubConnected_append env pre (a :: suf) hpre, h1]

/-- Claim C3 (amended, witness): channel `mid`'s synchronization fails
between healthy channels `first` and `last`: `first` is processed, `mid`
raises, `last` gets nothing this tick, and the timer still reschedules
at `now + T` (here `100 + 60000`). -/
theorem sync_error_aborts_rest_witness :
    isChannelEventHubConnected ⟨fun _ => true, fun c => c == "mid"⟩
        (["first"] ++ "mid" :: ["last"]) =
      (["first"].map (routeAction ⟨fun _ => true, fun c => c == "mid"⟩) ++
        [TickAction.synch "mid"], some "mid") ∧
    ∀ T now : Int,
      syncTimerNext T now
        (isChannelEventHubConnected ⟨fun _ => true, fun c => c == "mid"⟩
          (["first"] ++ "mid" :: ["last"])) = now + T :=
  sync_error_aborts_rest_but_timer_reschedules
    ⟨fun _ => true, fun c => c == "mid"⟩ ["first"] ["last"] "mid"
    (by decide) rfl rfl
